import Mathlib

/-!
Shallow embedding of the buffer-pool test harness scripts
(`pf_task1_testrunner.py`, `run_pf_experiments.py`, `run_task3_experiments.py`).
Machine integers are modelled as `Int`, Python floats as `ℚ` (the harness only
compares and echoes them; no float rounding is exercised by the checked
properties), Python dicts as association lists with replace-or-append
assignment, and fallible code as `Except`/`Option`.  String primitives
(`strip`, `split`, `in`, `startswith`, `join`) are given structurally
recursive definitions over the character list so that every definition
evaluates by kernel reduction.
-/

namespace DBS

/-- Whitespace characters recognised by Python `str.strip()`. -/
def isPySpace (c : Char) : Bool :=
  c == ' ' || c == '\t' || c == '\n' || c == '\r' || c == '\x0b' || c == '\x0c'

/-- Python `str.strip()` on a character list. -/
def pyStripList (cs : List Char) : List Char :=
  ((cs.dropWhile isPySpace).reverse.dropWhile isPySpace).reverse

/-- Python `str.strip()`. -/
def pyStrip (s : String) : String := String.mk (pyStripList s.data)

/-- Helper for `pySplitChar`: accumulate the current field in reverse. -/
def pySplitCharAux (sep : Char) : List Char → List Char → List String
  | [], acc => [String.mk acc.reverse]
  | c :: rest, acc =>
    if c == sep then String.mk acc.reverse :: pySplitCharAux sep rest []
    else pySplitCharAux sep rest (c :: acc)

/-- Python `s.split(sep)` for a one-character separator (the only separators
the harness uses: `','`, `'='`, and newline). -/
def pySplitChar (sep : Char) (s : String) : List String :=
  pySplitCharAux sep s.data []

/-- Python `c in s` for a single character. -/
def pyContains (s : String) (c : Char) : Bool := s.data.contains c

/-- Python `s.startswith(pre)`. -/
def pyStartsWith (pre s : String) : Bool := List.isPrefixOf pre.data s.data

/-- Python `sep.join(parts)`. -/
def pyJoin (sep : String) : List String → String
  | [] => ""
  | [x] => x
  | x :: y :: rest => x ++ sep ++ pyJoin sep (y :: rest)

/-- Value of a list of decimal digit characters. -/
def digitsVal (ds : List Char) : Nat :=
  ds.foldl (fun acc d => acc * 10 + (d.toNat - 48)) 0

/-- Python `int(s)` restricted to the literals the harness meets: optional
surrounding whitespace, an optional sign, then one or more decimal digits. -/
def parsePyInt (s : String) : Option Int :=
  match pyStripList s.data with
  | [] => none
  | c :: rest =>
    let signed : Bool × List Char :=
      if c = '-' then (true, rest)
      else if c = '+' then (false, rest)
      else (false, c :: rest)
    if signed.2 = [] ∨ ¬ signed.2.all Char.isDigit then none
    else
      let n : Nat := digitsVal signed.2
      some (if signed.1 then -(n : Int) else (n : Int))

/-- Python `float(s)` restricted to plain decimal literals
(optional sign, digits, optional point, digits), read exactly as a rational. -/
def parsePyFloat (s : String) : Option ℚ :=
  match pyStripList s.data with
  | [] => none
  | c :: rest =>
    let signed : Bool × List Char :=
      if c = '-' then (true, rest)
      else if c = '+' then (false, rest)
      else (false, c :: rest)
    let intPart := signed.2.takeWhile Char.isDigit
    let afterInt := signed.2.dropWhile Char.isDigit
    match afterInt with
    | [] =>
      if intPart = [] then none
      else
        let q : ℚ := mkRat (digitsVal intPart) 1
        some (if signed.1 then -q else q)
    | '.' :: fracPart =>
      if ¬ fracPart.all Char.isDigit then none
      else if intPart = [] ∧ fracPart = [] then none
      else
        let q : ℚ :=
          mkRat (digitsVal intPart * 10 ^ fracPart.length + digitsVal fracPart)
            (10 ^ fracPart.length)
        some (if signed.1 then -q else q)
    | _ => none

/-- One point of the parameter grid: the tuple passed to `run_single`. -/
structure Config where
  pool : Int
  policy : String
  ops : Int
  pages : Int
  write_frac : ℚ
deriving DecidableEq

/-- The normalized dict `r2` that `run_single` builds from one parsed
result line. -/
structure CanonicalRecord where
  policy : String
  pool : Int
  ops : Int
  pages : Int
  write_frac : ℚ
  logical_reads : Int
  logical_writes : Int
  phys_reads : Int
  phys_writes : Int
  page_hits : Int
  page_misses : Int
deriving DecidableEq

/-- Python dict assignment `r[k] = v`: replace the binding if the key exists,
otherwise append it. -/
def dictInsert (d : List (String × String)) (k v : String) : List (String × String) :=
  if d.any (fun p => p.1 == k) then
    d.map (fun p => if p.1 == k then (k, v) else p)
  else d ++ [(k, v)]

/-- The `key=value` branch of `run_single`: split the last line on commas and,
for each part containing `=`, split once on the first `=` and store the
stripped key and value (`part.split('=', 1)`). -/
def parseKV (line : String) : List (String × String) :=
  (pySplitChar ',' line).foldl
    (fun r part =>
      match pySplitChar '=' part with
      | k :: v1 :: vs => dictInsert r (pyStrip k) (pyStrip (pyJoin "=" (v1 :: vs)))
      | _ => r) []

/-- The `csv.DictReader` branch of `run_single` for the headered form: the
first line is the header, each later line is zipped with the header fields
(none of the tested formats use csv quoting). -/
def dictRows (lines : List String) : List (List (String × String)) :=
  match lines with
  | [] => []
  | header :: rest =>
    let hs := pySplitChar ',' header
    rest.map (fun l =>
      (hs.zip (pySplitChar ',' l)).foldl (fun d p => dictInsert d p.1 p.2) [])

/-- String form of a Python `KeyError` for key `k`. -/
def keyErr (k : String) : String := "'" ++ k ++ "'"

/-- String form of the `ValueError` raised by `int()` on a bad literal. -/
def intErr (v : String) : String :=
  "invalid literal for int() with base 10: '" ++ v ++ "'"

/-- String form of the `ValueError` raised by `float()` on a bad literal. -/
def floatErr (v : String) : String :=
  "could not convert string to float: '" ++ v ++ "'"

/-- Access `r[k]` for a required string field: a missing key raises
`KeyError`. -/
def reqStr (r : List (String × String)) (k : String) : Except String String :=
  match List.lookup k r with
  | some v => .ok v
  | none => .error (keyErr k)

/-- Evaluate `int(r[k])` for a required integer field. -/
def reqInt (r : List (String × String)) (k : String) : Except String Int :=
  match List.lookup k r with
  | some v =>
    match parsePyInt v with
    | some n => .ok n
    | none => .error (intErr v)
  | none => .error (keyErr k)

/-- Evaluate `float(r[k])` for a required float field. -/
def reqFloat (r : List (String × String)) (k : String) : Except String ℚ :=
  match List.lookup k r with
  | some v =>
    match parsePyFloat v with
    | some q => .ok q
    | none => .error (floatErr v)
  | none => .error (keyErr k)

/-- Evaluate `int(r.get(k1, r.get(k2, 0)))` for a counter field with an alias
and a default of zero. -/
def optInt (r : List (String × String)) (k1 k2 : String) : Except String Int :=
  match List.lookup k1 r with
  | some v =>
    match parsePyInt v with
    | some n => .ok n
    | none => .error (intErr v)
  | none =>
    match List.lookup k2 r with
    | some v =>
      match parsePyInt v with
      | some n => .ok n
      | none => .error (intErr v)
    | none => .ok 0

/-- The `normalize & convert` step of `run_single`: build the dict `r2` from
the parsed dict `r`, propagating the first exception raised. -/
def normalize (r : List (String × String)) : Except String CanonicalRecord :=
  match reqStr r "policy" with
  | .error e => .error e
  | .ok policy =>
  match reqInt r "pool" with
  | .error e => .error e
  | .ok pool =>
  match reqInt r "ops" with
  | .error e => .error e
  | .ok ops =>
  match reqInt r "pages" with
  | .error e => .error e
  | .ok pages =>
  match reqFloat r "write_frac" with
  | .error e => .error e
  | .ok write_frac =>
  match optInt r "logical_reads" "logical read" with
  | .error e => .error e
  | .ok logical_reads =>
  match optInt r "logical_writes" "logical write" with
  | .error e => .error e
  | .ok logical_writes =>
  match optInt r "phys_reads" "physical read" with
  | .error e => .error e
  | .ok phys_reads =>
  match optInt r "phys_writes" "physical write" with
  | .error e => .error e
  | .ok phys_writes =>
  match optInt r "page_hits" "hits" with
  | .error e => .error e
  | .ok page_hits =>
  match optInt r "page_misses" "misses" with
  | .error e => .error e
  | .ok page_misses =>
    .ok { policy, pool, ops, pages, write_frac, logical_reads, logical_writes,
          phys_reads, phys_writes, page_hits, page_misses }

/-- The sanity-check list built by `run_single` over the record `r2`. -/
def checksOf (r : CanonicalRecord) : List String :=
  (if r.page_hits + r.page_misses ≠ r.ops then ["hitmiss_sum"] else []) ++
  (if r.page_hits < 0 ∨ r.page_misses < 0 then ["hitmiss_negative"] else []) ++
  (if r.phys_reads < 0 ∨ r.phys_writes < 0 then ["phys_negative"] else []) ++
  (if ¬ (0 ≤ r.write_frac ∧ r.write_frac ≤ 1) then ["bad_write_frac"] else [])

/-- The status string `run_single` attaches: `pass` iff no check fired. -/
def statusOf (r : CanonicalRecord) : String :=
  if checksOf r = [] then "pass" else "fail"

/-- Outcome of one `subprocess.run` call on the tested binary: normal return
with captured stdout, `CalledProcessError` with the nonzero return code and
stderr, or `TimeoutExpired`. -/
inductive InvokeResult
  | ok (stdout : String)
  | nonzeroExit (code : Int) (stderr : String)
  | timedOut
deriving DecidableEq

/-- Value returned by `run_single`: an error dict (tag, echoed configuration,
and the raw parsed dict when the failure was in normalization), or the
normalized record with its status and fail reasons. -/
inductive RunResult
  | error (tag : String) (cfg : Config) (raw : Option (List (String × String)))
  | done (record : CanonicalRecord) (status : String) (fail_reasons : List String)
deriving DecidableEq

/-- Final step of the decode path of `run_single`: normalization failure
becomes a `parse_error_` record keeping the raw dict, success is validated. -/
def finishDecode (r : List (String × String)) (cfg : Config) : RunResult :=
  match normalize r with
  | .error d => .error ("parse_error_" ++ d) cfg (some r)
  | .ok r2 => .done r2 (statusOf r2) (checksOf r2)

/-- The body of `run_single` given the invocation outcome of the binary. -/
def run_single (cfg : Config) (inv : InvokeResult) : RunResult :=
  match inv with
  | .nonzeroExit code _stderr => .error ("exit_code_" ++ toString code) cfg none
  | .timedOut => .error "timeout" cfg none
  | .ok stdout =>
    let content := pyStrip stdout
    if content = "" then .error "empty_stdout" cfg none
    else
      let lines := (pySplitChar '\n' content).filter (fun l => pyStrip l != "")
      let last := lines.getLastD ""
      if pyContains last '=' then
        finishDecode (parseKV last) cfg
      else
        let rows := dictRows lines
        if rows.isEmpty then .error "empty_stdout" cfg none
        else finishDecode (rows.getLastD []) cfg

/-- Classification used by the tallies of `main`: an error dict. -/
def RunResult.isErrorRec : RunResult → Bool
  | .error _ _ _ => true
  | .done _ _ _ => false

/-- Classification used by the tallies of `main`: status string `pass`. -/
def RunResult.isPass : RunResult → Bool
  | .done _ st _ => st == "pass"
  | .error _ _ _ => false

/-- Classification used by the tallies of `main`: a decoded record whose
status string is not `pass`. -/
def RunResult.isFailRec : RunResult → Bool
  | .done _ st _ => st != "pass"
  | .error _ _ _ => false

/-- The cross-run state of `main` in `pf_task1_testrunner.py`: the three
tallies and the list of data rows appended to the results CSV (each row is
kept as the configuration it came from paired with the run result it
serialises). -/
structure SweepState where
  passes : Nat
  fails : Nat
  errors : Nat
  csv : List (Config × RunResult)
deriving DecidableEq

/-- One iteration of the sweep loop of `main`: bump exactly one tally and
append exactly one CSV row. -/
def sweepStep (s : SweepState) (item : Config × RunResult) : SweepState :=
  match item.2 with
  | .error _ _ _ => { s with errors := s.errors + 1, csv := s.csv ++ [item] }
  | .done _ st _ =>
    if st == "pass" then { s with passes := s.passes + 1, csv := s.csv ++ [item] }
    else { s with fails := s.fails + 1, csv := s.csv ++ [item] }

/-- The sweep loop of `main`, fed with each configuration paired with the
result its invocation produced. -/
def mainLoop (items : List (Config × RunResult)) : SweepState :=
  items.foldl sweepStep ⟨0, 0, 0, []⟩

/-- The process exit code of `main`: 2 when `ensure_binary` failed, else 1
when the sweep counted any fail or error, else 0. -/
def mainExit (binaryOk : Bool) (items : List (Config × RunResult)) : Nat :=
  if binaryOk = false then 2
  else if (mainLoop items).fails ≠ 0 ∨ (mainLoop items).errors ≠ 0 then 1
  else 0

/-- The `itertools.product` of five axes, in the nesting order of the
arguments: first axis outermost, last axis innermost. -/
def pyProduct5 {α β γ δ ε : Type} (as : List α) (bs : List β) (cs : List γ)
    (ds : List δ) (es : List ε) : List (α × β × γ × δ × ε) :=
  as.flatMap fun a => bs.flatMap fun b => cs.flatMap fun c => ds.flatMap fun d =>
    es.map fun e => (a, b, c, d, e)

/-- The full `pools` axis of the parameter grid. -/
def pools : List Int := [0, 1, 3, 5, 10, 20]

/-- The full `pages` axis of the parameter grid. -/
def pages : List Int := [1, 2, 3, 5, 10]

/-- The `policies` axis of the parameter grid (shared by both modes). -/
def policies : List String := ["LRU", "MRU"]

/-- The full `ops_list` axis of the parameter grid. -/
def ops_list : List Int := [1, 5, 50, 200]

/-- The full `write_fracs` axis of the parameter grid. -/
def write_fracs : List ℚ :=
  [0, mkRat 1 100, mkRat 1 10, mkRat 1 4, mkRat 1 2, mkRat 3 4, mkRat 9 10, 1]

/-- The `pools` axis substituted when the QUICK environment toggle is set. -/
def pools_quick : List Int := [1, 5]

/-- The `pages` axis substituted when QUICK is set. -/
def pages_quick : List Int := [3, 10]

/-- The `ops_list` axis substituted when QUICK is set. -/
def ops_list_quick : List Int := [10, 200]

/-- The `write_fracs` axis substituted when QUICK is set. -/
def write_fracs_quick : List ℚ := [0, mkRat 1 2, 1]

/-- The configuration sequence of the full sweep:
`list(product(pools, policies, ops_list, pages, write_fracs))`. -/
def combos : List (Int × String × Int × Int × ℚ) :=
  pyProduct5 pools policies ops_list pages write_fracs

/-- The configuration sequence of the quick sweep: the same `product` call
over the substituted axes. -/
def combos_quick : List (Int × String × Int × Int × ℚ) :=
  pyProduct5 pools_quick policies ops_list_quick pages_quick write_fracs_quick

/-- Outcome of one `subprocess.check_output` call in
`run_pf_experiments.py`. -/
inductive PfInvoke
  | ok
  | calledProcessError (code : Int)
deriving DecidableEq

/-- The sweep loop of `run_pf_experiments.py` over its (flattened)
policy/pool/write-fraction grid: on `CalledProcessError` the script calls
`sys.exit(1)` and no later configuration is attempted.  Returns the
configurations attempted in order and the exit code if the sweep aborted. -/
def pfExpSweep : List (Config × PfInvoke) → List Config × Option Nat
  | [] => ([], none)
  | (c, .calledProcessError _) :: _ => ([c], some 1)
  | (c, .ok) :: rest =>
    let r := pfExpSweep rest
    (c :: r.1, r.2)

/-- The sink read of `run_pf_experiments.py` after one invocation:
`last = list(csv.reader(f))[-1]` followed by `int(last[5]) .. int(last[10])`;
an empty file, a short row, or a non-integer field raises (modelled as
`none`). -/
def readSinkRow (last : List String) : Option (Int × Int × Int × Int × Int × Int) := do
  let s5 ← last[5]?
  let s6 ← last[6]?
  let s7 ← last[7]?
  let s8 ← last[8]?
  let s9 ← last[9]?
  let s10 ← last[10]?
  let v5 ← parsePyInt s5
  let v6 ← parsePyInt s6
  let v7 ← parsePyInt s7
  let v8 ← parsePyInt s8
  let v9 ← parsePyInt s9
  let v10 ← parsePyInt s10
  some (v5, v6, v7, v8, v9, v10)

/-- The last-row lookup of the sink read: `list(csv.reader(f))[-1]` on an
empty file raises (modelled as `none`); otherwise the counters come from the
last row. -/
def readSinkLast (rows : List (List String)) :
    Option (Int × Int × Int × Int × Int × Int) :=
  match rows.getLast? with
  | none => none
  | some last => readSinkRow last

/-- Value of `run_one` in `run_task3_experiments.py`: the collected rows, a
`None` return (nonzero exit or fewer than three data rows), or an uncaught
exception escaping the function. -/
inductive Task3Result
  | collected (results : List (String × Int × List Int))
  | returnedNone
  | raised (msg : String)
deriving DecidableEq

/-- Evaluate `list(map(int, parts))`: raises at the first non-integer. -/
def parseIntsAll : List String → Except String (List Int)
  | [] => .ok []
  | s :: rest =>
    match parsePyInt s with
    | none => .error (intErr s)
    | some n =>
      match parseIntsAll rest with
      | .error e => .error e
      | .ok ns => .ok (n :: ns)

/-- Locate the data rows in `run_one`: the three lines after the first line
starting with `Method,`, or the empty list if there is no such line. -/
def findDataRows : List String → List String
  | [] => []
  | l :: rest => if pyStartsWith "Method," l then rest.take 3 else findDataRows rest

/-- The row loop of `run_one`: a row whose comma-split, stripped field list
is not 8 long is skipped with a printed warning; otherwise its seven numeric
fields go through `int`, and a failure there escapes as an exception.  The
8-field test is expressed on the tail after peeling the method column
(`parts.length = 8` iff the tail has 7 entries; a comma-split list is never
empty, so the empty case only repeats the skip). -/
def processRows (n : Int) : List String → Except String (List (String × Int × List Int))
  | [] => .ok []
  | r :: rest =>
    match (pySplitChar ',' r).map pyStrip with
    | [] => processRows n rest
    | method :: numParts =>
      if numParts.length ≠ 7 then processRows n rest
      else
        match parseIntsAll numParts with
        | .error e => .error e
        | .ok vals =>
          match processRows n rest with
          | .error e => .error e
          | .ok rs => .ok ((method, n, vals) :: rs)

/-- Python `str.splitlines()` composed with the strip-and-filter of
`run_one`: the non-blank stripped lines of the captured stdout. -/
def pyLines (s : String) : List String :=
  ((pySplitChar '\n' s).map pyStrip).filter (fun l => l != "")

/-- The body of `run_one` in `run_task3_experiments.py` given the return
code and captured stdout of the invocation. -/
def run_one (n : Int) (returncode : Int) (stdout : String) : Task3Result :=
  if returncode ≠ 0 then .returnedNone
  else
    let rows := findDataRows (pyLines stdout)
    if rows.length < 3 then .returnedNone
    else
      match processRows n rows with
      | .error e => .raised e
      | .ok rs => .collected rs

/-- Final state of the size loop of `main` in `run_task3_experiments.py`:
either the loop finished (possibly via `break`) with the aggregated rows and
the sizes attempted, or an uncaught exception crashed the script. -/
inductive Task3SweepResult
  | finished (aggregated : List (String × Int × List Int)) (attempted : List Int)
  | crashed (attempted : List Int) (msg : String)
deriving DecidableEq

/-- Worker for `task3Sweep`, carrying the accumulated rows and attempted
sizes. -/
def task3SweepGo (agg : List (String × Int × List Int)) (att : List Int) :
    List (Int × Task3Result) → Task3SweepResult
  | [] => .finished agg att
  | (n, res) :: rest =>
    match res with
    | .raised m => .crashed (att ++ [n]) m
    | .returnedNone => .finished agg (att ++ [n])
    | .collected rs => task3SweepGo (agg ++ rs) (att ++ [n]) rest

/-- The size loop of `main` in `run_task3_experiments.py`: a `None` from
`run_one` prints a message and `break`s out of the loop; an exception
crashes the script. -/
def task3Sweep (runs : List (Int × Task3Result)) : Task3SweepResult :=
  task3SweepGo [] [] runs

/-- The sizes attempted according to a `Task3SweepResult`. -/
def Task3SweepResult.attempted : Task3SweepResult → List Int
  | .finished _ att => att
  | .crashed att _ => att

/-- Whether a `Task3Result` lets the size loop continue. -/
def Task3Result.isCollected : Task3Result → Bool
  | .collected _ => true
  | _ => false




lemma sweepStep_tally (s : SweepState) (it : Config × RunResult) :
    ((sweepStep s it).passes + (sweepStep s it).fails + (sweepStep s it).errors
      = s.passes + s.fails + s.errors + 1)
    ∧ (sweepStep s it).csv = s.csv ++ [it] := by
  obtain ⟨c, res⟩ := it
  cases res with
  | error t cf raw =>
    refine ⟨?_, ?_⟩ <;> simp [sweepStep] <;> omega
  | done rec2 st fr =>
    by_cases hst : st = "pass" <;>
      refine ⟨?_, ?_⟩ <;> simp [sweepStep, hst, beq_iff_eq] <;> omega

lemma mainLoop_go (items : List (Config × RunResult)) :
    ∀ s : SweepState,
      ((items.foldl sweepStep s).passes + (items.foldl sweepStep s).fails
        + (items.foldl sweepStep s).errors = s.passes + s.fails + s.errors + items.length)
      ∧ (items.foldl sweepStep s).csv = s.csv ++ items := by
  induction items with
  | nil => intro s; simp
  | cons it rest ih =>
    intro s
    obtain ⟨h1a, h1b⟩ := sweepStep_tally s it
    obtain ⟨h2a, h2b⟩ := ih (sweepStep s it)
    refine ⟨?_, ?_⟩
    · simp only [List.foldl_cons, List.length_cons]
      omega
    · simp only [List.foldl_cons, h2b, h1b, List.append_assoc, List.cons_append,
        List.nil_append]

lemma sweepStep_counts (s : SweepState) (it : Config × RunResult) :
    (sweepStep s it).passes = s.passes + (if it.2.isPass then 1 else 0)
    ∧ (sweepStep s it).fails = s.fails + (if it.2.isFailRec then 1 else 0)
    ∧ (sweepStep s it).errors = s.errors + (if it.2.isErrorRec then 1 else 0) := by
  obtain ⟨c, res⟩ := it
  cases res with
  | error t cf raw =>
    simp [sweepStep, RunResult.isPass, RunResult.isFailRec, RunResult.isErrorRec]
  | done rec2 st fr =>
    by_cases hst : st = "pass" <;>
      simp [sweepStep, hst, beq_iff_eq, bne_iff_ne,
        RunResult.isPass, RunResult.isFailRec, RunResult.isErrorRec]

lemma mainLoop_counts_go (items : List (Config × RunResult)) :
    ∀ s : SweepState,
      (items.foldl sweepStep s).passes = s.passes + items.countP (fun it => it.2.isPass)
      ∧ (items.foldl sweepStep s).fails = s.fails + items.countP (fun it => it.2.isFailRec)
      ∧ (items.foldl sweepStep s).errors = s.errors + items.countP (fun it => it.2.isErrorRec) := by
  induction items with
  | nil => intro s; simp
  | cons it rest ih =>
    intro s
    obtain ⟨h1a, h1b, h1c⟩ := sweepStep_counts s it
    obtain ⟨h2a, h2b, h2c⟩ := ih (sweepStep s it)
    simp only [List.foldl_cons, List.countP_cons]
    refine ⟨?_, ?_, ?_⟩
    · rw [h2a, h1a]
      by_cases h : it.2.isPass <;> simp [h] <;> omega
    · rw [h2b, h1b]
      by_cases h : it.2.isFailRec <;> simp [h] <;> omega
    · rw [h2c, h1c]
      by_cases h : it.2.isErrorRec <;> simp [h] <;> omega



lemma pfExp_attempted (runs : List (Config × PfInvoke)) :
    (pfExpSweep runs).1 =
      (runs.takeWhile (fun p => p.2 == PfInvoke.ok)).map Prod.fst
        ++ ((runs.dropWhile (fun p => p.2 == PfInvoke.ok)).take 1).map Prod.fst := by
  induction runs with
  | nil => simp [pfExpSweep]
  | cons p rest ih =>
    obtain ⟨c, inv⟩ := p
    cases inv with
    | ok =>
      simp only [pfExpSweep, List.takeWhile_cons, List.dropWhile_cons]
      simp [ih]
    | calledProcessError n =>
      simp [pfExpSweep, List.takeWhile_cons, List.dropWhile_cons]

lemma task3_go_attempted (runs : List (Int × Task3Result)) :
    ∀ agg att, (task3SweepGo agg att runs).attempted =
      att ++ (runs.takeWhile (fun p => p.2.isCollected)).map Prod.fst
          ++ ((runs.dropWhile (fun p => p.2.isCollected)).take 1).map Prod.fst := by
  induction runs with
  | nil => intro agg att; simp [task3SweepGo, Task3SweepResult.attempted]
  | cons p rest ih =>
    intro agg att
    obtain ⟨n, res⟩ := p
    cases res with
    | collected rs =>
      simp [task3SweepGo, List.takeWhile_cons, List.dropWhile_cons, Task3Result.isCollected, ih]
    | returnedNone =>
      simp [task3SweepGo, Task3SweepResult.attempted, Task3Result.isCollected]
    | raised m =>
      simp [task3SweepGo, Task3SweepResult.attempted, Task3Result.isCollected]

lemma mixed_lt {i j B C : Nat} (hi : i < B) (hj : j < C) : i * C + j < B * C := by
  calc i * C + j < i * C + C := by omega
    _ = (i + 1) * C := by ring
    _ ≤ B * C := Nat.mul_le_mul_right C hi

lemma flatMap_length_const {α β : Type} (f : α → List β) (L : Nat)
    (hL : ∀ a, (f a).length = L) : ∀ as : List α, (as.flatMap f).length = as.length * L := by
  intro as
  induction as with
  | nil => simp
  | cons x xs ih =>
    simp only [List.flatMap_cons, List.length_append, hL, ih, List.length_cons]
    ring

lemma flatMap_getElem?_const {α β : Type} (f : α → List β) (L : Nat)
    (hL : ∀ a, (f a).length = L) :
    ∀ (as : List α) (i j : Nat) (a : α), as[i]? = some a → j < L →
      (as.flatMap f)[i * L + j]? = (f a)[j]? := by
  intro as
  induction as with
  | nil => intro i j a h _; simp at h
  | cons x xs ih =>
    intro i j a h hj
    cases i with
    | zero =>
      simp only [List.getElem?_cons_zero, Option.some.injEq] at h
      subst h
      rw [List.flatMap_cons, Nat.zero_mul, Nat.zero_add]
      exact List.getElem?_append_left (by rw [hL]; exact hj)
    | succ i =>
      simp only [List.getElem?_cons_succ] at h
      rw [List.flatMap_cons]
      have hidx : (i + 1) * L + j = (f x).length + (i * L + j) := by rw [hL]; ring
      rw [hidx, List.getElem?_append_right (Nat.le_add_right _ _), Nat.add_sub_cancel_left]
      exact ih i j a h hj



lemma length_pyProduct5 {α β γ δ ε : Type} (as : List α) (bs : List β) (cs : List γ)
    (ds : List δ) (es : List ε) :
    (pyProduct5 as bs cs ds es).length
      = as.length * (bs.length * (cs.length * (ds.length * es.length))) := by
  unfold pyProduct5
  refine flatMap_length_const _ _ (fun a => ?_) as
  refine flatMap_length_const _ _ (fun b => ?_) bs
  refine flatMap_length_const _ _ (fun c => ?_) cs
  refine flatMap_length_const _ _ (fun d => ?_) ds
  exact List.length_map es _

lemma pyProduct5_getElem? {α β γ δ ε : Type} (as : List α) (bs : List β) (cs : List γ)
    (ds : List δ) (es : List ε) (i1 i2 i3 i4 i5 : Nat) (a : α) (b : β) (c : γ) (d : δ) (e : ε)
    (h1 : as[i1]? = some a) (h2 : bs[i2]? = some b) (h3 : cs[i3]? = some c)
    (h4 : ds[i4]? = some d) (h5 : es[i5]? = some e) :
    (pyProduct5 as bs cs ds es)[
      (((i1 * bs.length + i2) * cs.length + i3) * ds.length + i4) * es.length + i5]?
      = some (a, b, c, d, e) := by
  have hb2 : i2 < bs.length := (List.getElem?_eq_some.mp h2).1
  have hb3 : i3 < cs.length := (List.getElem?_eq_some.mp h3).1
  have hb4 : i4 < ds.length := (List.getElem?_eq_some.mp h4).1
  have hb5 : i5 < es.length := (List.getElem?_eq_some.mp h5).1
  have hL1 : ∀ d' : δ, ((es.map fun e' => (a, b, c, d', e')).length) = es.length :=
    fun d' => List.length_map es _
  -- layer 4: map over es
  have step1 : (es.map fun e' => (a, b, c, d, e'))[i5]? = some (a, b, c, d, e) := by
    rw [List.getElem?_map, h5]; rfl
  -- layer 3: flatMap over ds
  have step2 :
      (ds.flatMap fun d' => es.map fun e' => (a, b, c, d', e'))[i4 * es.length + i5]?
        = some (a, b, c, d, e) := by
    rw [flatMap_getElem?_const _ es.length (fun d' => List.length_map es _) ds i4 i5 d h4 hb5]
    exact step1
  -- layer 2: flatMap over cs
  have hlen2 : ∀ c' : γ, ((ds.flatMap fun d' => es.map fun e' => (a, b, c', d', e')).length)
      = ds.length * es.length :=
    fun c' => flatMap_length_const _ es.length (fun d' => List.length_map es _) ds
  have step3 :
      (cs.flatMap fun c' => ds.flatMap fun d' => es.map fun e' => (a, b, c', d', e'))[
        (i3 * ds.length + i4) * es.length + i5]?
        = some (a, b, c, d, e) := by
    have hidx : (i3 * ds.length + i4) * es.length + i5
        = i3 * (ds.length * es.length) + (i4 * es.length + i5) := by ring
    rw [hidx,
      flatMap_getElem?_const _ (ds.length * es.length) hlen2 cs i3 _ c h3
        (mixed_lt hb4 hb5)]
    exact step2
  -- layer 1: flatMap over bs
  have hlen3 : ∀ b' : β,
      ((cs.flatMap fun c' => ds.flatMap fun d' => es.map fun e' => (a, b', c', d', e')).length)
      = cs.length * (ds.length * es.length) :=
    fun b' => flatMap_length_const _ (ds.length * es.length)
      (fun c' => flatMap_length_const _ es.length (fun d' => List.length_map es _) ds) cs
  have step4 :
      (bs.flatMap fun b' => cs.flatMap fun c' => ds.flatMap fun d' =>
        es.map fun e' => (a, b', c', d', e'))[
        ((i2 * cs.length + i3) * ds.length + i4) * es.length + i5]?
        = some (a, b, c, d, e) := by
    have hidx : ((i2 * cs.length + i3) * ds.length + i4) * es.length + i5
        = i2 * (cs.length * (ds.length * es.length))
          + ((i3 * ds.length + i4) * es.length + i5) := by ring
    have hr : (i3 * ds.length + i4) * es.length + i5
        < cs.length * (ds.length * es.length) := by
      have := mixed_lt (mixed_lt hb3 hb4) hb5
      calc (i3 * ds.length + i4) * es.length + i5
          < cs.length * ds.length * es.length := this
        _ = cs.length * (ds.length * es.length) := by ring
    rw [hidx, flatMap_getElem?_const _ (cs.length * (ds.length * es.length)) hlen3 bs i2 _ b h2 hr]
    exact step3
  -- layer 0: flatMap over as
  have hlen4 : ∀ a' : α,
      ((bs.flatMap fun b' => cs.flatMap fun c' => ds.flatMap fun d' =>
        es.map fun e' => (a', b', c', d', e')).length)
      = bs.length * (cs.length * (ds.length * es.length)) :=
    fun a' => flatMap_length_const _ (cs.length * (ds.length * es.length))
      (fun b' => flatMap_length_const _ (ds.length * es.length)
        (fun c' => flatMap_length_const _ es.length (fun d' => List.length_map es _) ds) cs) bs
  have hidx : (((i1 * bs.length + i2) * cs.length + i3) * ds.length + i4) * es.length + i5
      = i1 * (bs.length * (cs.length * (ds.length * es.length)))
        + (((i2 * cs.length + i3) * ds.length + i4) * es.length + i5) := by ring
  have hr : ((i2 * cs.length + i3) * ds.length + i4) * es.length + i5
      < bs.length * (cs.length * (ds.length * es.length)) := by
    have := mixed_lt (mixed_lt (mixed_lt hb2 hb3) hb4) hb5
    calc ((i2 * cs.length + i3) * ds.length + i4) * es.length + i5
        < bs.length * cs.length * ds.length * es.length := this
      _ = bs.length * (cs.length * (ds.length * es.length)) := by ring
  unfold pyProduct5
  rw [hidx,
    flatMap_getElem?_const _ (bs.length * (cs.length * (ds.length * es.length))) hlen4 as i1 _ a h1 hr]
  exact step4



lemma reqStr_ok {r : List (String × String)} {k v : String}
    (h : reqStr r k = .ok v) : List.lookup k r = some v := by
  unfold reqStr at h
  cases hl : List.lookup k r with
  | none => rw [hl] at h; simp at h
  | some w => rw [hl] at h; simp at h; rw [h]

lemma reqInt_ok {r : List (String × String)} {k : String} {n : Int}
    (h : reqInt r k = .ok n) :
    ∃ v, List.lookup k r = some v ∧ parsePyInt v = some n := by
  unfold reqInt at h
  cases hl : List.lookup k r with
  | none => rw [hl] at h; simp at h
  | some w =>
    rw [hl] at h
    have h' : (match parsePyInt w with
      | some m => (Except.ok m : Except String Int)
      | none => Except.error (intErr w)) = Except.ok n := h
    cases hp : parsePyInt w with
    | none => rw [hp] at h'; simp at h'
    | some m => rw [hp] at h'; simp at h'; exact ⟨w, rfl, by rw [hp, h']⟩

lemma reqFloat_ok {r : List (String × String)} {k : String} {q : ℚ}
    (h : reqFloat r k = .ok q) :
    ∃ v, List.lookup k r = some v ∧ parsePyFloat v = some q := by
  unfold reqFloat at h
  cases hl : List.lookup k r with
  | none => rw [hl] at h; simp at h
  | some w =>
    rw [hl] at h
    have h' : (match parsePyFloat w with
      | some m => (Except.ok m : Except String ℚ)
      | none => Except.error (floatErr w)) = Except.ok q := h
    cases hp : parsePyFloat w with
    | none => rw [hp] at h'; simp at h'
    | some m => rw [hp] at h'; simp at h'; exact ⟨w, rfl, by rw [hp, h']⟩

lemma normalize_ok_spec {r : List (String × String)} {rec2 : CanonicalRecord}
    (h : normalize r = .ok rec2) :
    (∃ v, List.lookup "policy" r = some v ∧ rec2.policy = v)
    ∧ (∃ v n, List.lookup "pool" r = some v ∧ parsePyInt v = some n ∧ rec2.pool = n)
    ∧ (∃ v n, List.lookup "ops" r = some v ∧ parsePyInt v = some n ∧ rec2.ops = n)
    ∧ (∃ v n, List.lookup "pages" r = some v ∧ parsePyInt v = some n ∧ rec2.pages = n)
    ∧ (∃ v q, List.lookup "write_frac" r = some v ∧ parsePyFloat v = some q ∧ rec2.write_frac = q)
    ∧ optInt r "logical_reads" "logical read" = .ok rec2.logical_reads
    ∧ optInt r "logical_writes" "logical write" = .ok rec2.logical_writes
    ∧ optInt r "phys_reads" "physical read" = .ok rec2.phys_reads
    ∧ optInt r "phys_writes" "physical write" = .ok rec2.phys_writes
    ∧ optInt r "page_hits" "hits" = .ok rec2.page_hits
    ∧ optInt r "page_misses" "misses" = .ok rec2.page_misses := by
  unfold normalize at h
  cases h1 : reqStr r "policy" with
  | error e => rw [h1] at h; simp at h
  | ok v1 =>
  rw [h1] at h
  cases h2 : reqInt r "pool" with
  | error e => rw [h2] at h; simp at h
  | ok v2 =>
  rw [h2] at h
  cases h3 : reqInt r "ops" with
  | error e => rw [h3] at h; simp at h
  | ok v3 =>
  rw [h3] at h
  cases h4 : reqInt r "pages" with
  | error e => rw [h4] at h; simp at h
  | ok v4 =>
  rw [h4] at h
  cases h5 : reqFloat r "write_frac" with
  | error e => rw [h5] at h; simp at h
  | ok v5 =>
  rw [h5] at h
  cases h6 : optInt r "logical_reads" "logical read" with
  | error e => rw [h6] at h; simp at h
  | ok v6 =>
  rw [h6] at h
  cases h7 : optInt r "logical_writes" "logical write" with
  | error e => rw [h7] at h; simp at h
  | ok v7 =>
  rw [h7] at h
  cases h8 : optInt r "phys_reads" "physical read" with
  | error e => rw [h8] at h; simp at h
  | ok v8 =>
  rw [h8] at h
  cases h9 : optInt r "phys_writes" "physical write" with
  | error e => rw [h9] at h; simp at h
  | ok v9 =>
  rw [h9] at h
  cases h10 : optInt r "page_hits" "hits" with
  | error e => rw [h10] at h; simp at h
  | ok v10 =>
  rw [h10] at h
  cases h11 : optInt r "page_misses" "misses" with
  | error e => rw [h11] at h; simp at h
  | ok v11 =>
  rw [h11] at h
  simp only [Except.ok.injEq] at h
  subst h
  refine ⟨⟨v1, reqStr_ok h1, rfl⟩, ?_, ?_, ?_, ?_, rfl, rfl, rfl, rfl, rfl, rfl⟩
  · obtain ⟨w, hw, hp⟩ := reqInt_ok h2; exact ⟨w, v2, hw, hp, rfl⟩
  · obtain ⟨w, hw, hp⟩ := reqInt_ok h3; exact ⟨w, v3, hw, hp, rfl⟩
  · obtain ⟨w, hw, hp⟩ := reqInt_ok h4; exact ⟨w, v4, hw, hp, rfl⟩
  · obtain ⟨w, hw, hp⟩ := reqFloat_ok h5; exact ⟨w, v5, hw, hp, rfl⟩

lemma normalize_error_of_missing {r : List (String × String)} {k : String}
    (hk : k = "policy" ∨ k = "pool" ∨ k = "ops" ∨ k = "pages" ∨ k = "write_frac")
    (h : List.lookup k r = none) : ∃ d, normalize r = .error d := by
  cases he : normalize r with
  | error d => exact ⟨d, rfl⟩
  | ok rec2 =>
    obtain ⟨⟨v1, hl1, _⟩, ⟨v2, n2, hl2, _⟩, ⟨v3, n3, hl3, _⟩, ⟨v4, n4, hl4, _⟩,
      ⟨v5, q5, hl5, _⟩, _⟩ := normalize_ok_spec he
    rcases hk with rfl | rfl | rfl | rfl | rfl <;> simp_all

lemma optInt_none_none {r : List (String × String)} {k1 k2 : String}
    (h1 : List.lookup k1 r = none) (h2 : List.lookup k2 r = none) :
    optInt r k1 k2 = .ok 0 := by
  unfold optInt
  rw [h1, h2]



lemma finishDecode_error_shape {r : List (String × String)} {cfg : Config}
    {tag : String} {c : Config} {raw : Option (List (String × String))}
    (h : finishDecode r cfg = .error tag c raw) : ∃ d, tag = "parse_error_" ++ d := by
  unfold finishDecode at h
  cases hn : normalize r with
  | error d => rw [hn] at h; simp at h; exact ⟨d, h.1.symm⟩
  | ok r2 => rw [hn] at h; simp at h

lemma run_single_error_shape {cfg : Config} {inv : InvokeResult}
    {tag : String} {c : Config} {raw : Option (List (String × String))}
    (h : run_single cfg inv = .error tag c raw) :
    (∃ n : Int, tag = "exit_code_" ++ toString n) ∨ tag = "timeout" ∨ tag = "empty_stdout"
    ∨ ∃ d, tag = "parse_error_" ++ d := by
  cases inv with
  | nonzeroExit n err =>
    simp [run_single] at h
    exact Or.inl ⟨n, h.1.symm⟩
  | timedOut =>
    simp [run_single] at h
    exact Or.inr (Or.inl h.1.symm)
  | ok stdout =>
    simp only [run_single] at h
    split at h
    · simp at h
      exact Or.inr (Or.inr (Or.inl h.1.symm))
    · split at h
      · exact Or.inr (Or.inr (Or.inr (finishDecode_error_shape h)))
      · split at h
        · simp at h
          exact Or.inr (Or.inr (Or.inl h.1.symm))
        · exact Or.inr (Or.inr (Or.inr (finishDecode_error_shape h)))



lemma checksOf_mem_hitmiss (r : CanonicalRecord) :
    "hitmiss_sum" ∈ checksOf r ↔ r.page_hits + r.page_misses ≠ r.ops := by
  unfold checksOf
  split_ifs with h1 h2 h3 h4 <;> simp_all

lemma statusOf_pass_nonneg (r : CanonicalRecord) (h : statusOf r = "pass") :
    0 ≤ r.phys_reads ∧ 0 ≤ r.phys_writes ∧ 0 ≤ r.page_hits ∧ 0 ≤ r.page_misses := by
  unfold statusOf at h
  split_ifs at h with hc
  · unfold checksOf at hc
    split_ifs at hc with h1 h2 h3 h4 <;> simp_all <;> omega
  · exact absurd h (by decide)

lemma run_single_empty (cfg : Config) (s : String) (hs : pyStrip s = "") :
    run_single cfg (.ok s) = .error "empty_stdout" cfg none := by
  simp [run_single, hs]




lemma processRows_skip (n : Int) (r : String) (rest : List String)
    (method : String) (numParts : List String)
    (hsplit : (pySplitChar ',' r).map pyStrip = method :: numParts)
    (hlen : numParts.length ≠ 7) :
    processRows n (r :: rest) = processRows n rest := by
  have hstep : processRows n (r :: rest) =
      match (pySplitChar ',' r).map pyStrip with
      | [] => processRows n rest
      | method :: numParts =>
        if numParts.length ≠ 7 then processRows n rest
        else
          match parseIntsAll numParts with
          | .error e => .error e
          | .ok vals =>
            match processRows n rest with
            | .error e => .error e
            | .ok rs => .ok ((method, n, vals) :: rs) := rfl
  rw [hstep]
  simp only [hsplit]
  rw [if_pos hlen]

lemma processRows_keep (n : Int) (r : String) (rest : List String)
    (method : String) (numParts : List String) (vals : List Int)
    (hsplit : (pySplitChar ',' r).map pyStrip = method :: numParts)
    (hlen : numParts.length = 7)
    (hvals : parseIntsAll numParts = .ok vals) :
    processRows n (r :: rest)
      = (processRows n rest).map (fun rs => (method, n, vals) :: rs) := by
  have hstep : processRows n (r :: rest) =
      match (pySplitChar ',' r).map pyStrip with
      | [] => processRows n rest
      | method :: numParts =>
        if numParts.length ≠ 7 then processRows n rest
        else
          match parseIntsAll numParts with
          | .error e => .error e
          | .ok vals =>
            match processRows n rest with
            | .error e => .error e
            | .ok rs => .ok ((method, n, vals) :: rs) := rfl
  rw [hstep]
  simp only [hsplit, hvals]
  rw [if_neg (by simp [hlen])]
  cases hrest : processRows n rest <;> simp [Except.map]

lemma processRows_raises (n : Int) (r : String) (rest : List String)
    (method : String) (numParts : List String) (e : String)
    (hsplit : (pySplitChar ',' r).map pyStrip = method :: numParts)
    (hlen : numParts.length = 7)
    (hvals : parseIntsAll numParts = .error e) :
    processRows n (r :: rest) = .error e := by
  have hstep : processRows n (r :: rest) =
      match (pySplitChar ',' r).map pyStrip with
      | [] => processRows n rest
      | method :: numParts =>
        if numParts.length ≠ 7 then processRows n rest
        else
          match parseIntsAll numParts with
          | .error e => .error e
          | .ok vals =>
            match processRows n rest with
            | .error e => .error e
            | .ok rs => .ok ((method, n, vals) :: rs) := rfl
  rw [hstep]
  simp only [hsplit, hvals]
  rw [if_neg (by simp [hlen])]

lemma run_one_short (n : Int) (stdout : String)
    (h : (findDataRows (pyLines stdout)).length < 3) :
    run_one n 0 stdout = .returnedNone := by
  unfold run_one
  rw [if_neg (by omega)]
  simp only [if_pos h]

lemma run_one_raises (n : Int) (stdout : String) (e : String)
    (hlen : ¬ (findDataRows (pyLines stdout)).length < 3)
    (h : processRows n (findDataRows (pyLines stdout)) = .error e) :
    run_one n 0 stdout = .raised e := by
  unfold run_one
  rw [if_neg (by omega), if_neg hlen, h]

lemma readSinkLast_last_only (rows : List (List String)) (row : List String) :
    readSinkLast (rows ++ [row]) = readSinkLast [row] := by
  unfold readSinkLast
  rw [List.getLast?_concat]
  rw [show ([row] : List (List String)).getLast? = some row by simp]

lemma readSinkLast_spec (rows : List (List String)) (last : List String)
    (s5 s6 s7 s8 s9 s10 : String) (v5 v6 v7 v8 v9 v10 : Int)
    (hlast : rows.getLast? = some last)
    (h5 : last[5]? = some s5) (h6 : last[6]? = some s6) (h7 : last[7]? = some s7)
    (h8 : last[8]? = some s8) (h9 : last[9]? = some s9) (h10 : last[10]? = some s10)
    (p5 : parsePyInt s5 = some v5) (p6 : parsePyInt s6 = some v6)
    (p7 : parsePyInt s7 = some v7) (p8 : parsePyInt s8 = some v8)
    (p9 : parsePyInt s9 = some v9) (p10 : parsePyInt s10 = some v10) :
    readSinkLast rows = some (v5, v6, v7, v8, v9, v10) := by
  unfold readSinkLast
  rw [hlast]
  unfold readSinkRow
  simp [h5, h6, h7, h8, h9, h10, p5, p6, p7, p8, p9, p10]




lemma runResult_trichotomy (res : RunResult) :
    (res.isPass = true ∧ res.isFailRec = false ∧ res.isErrorRec = false)
    ∨ (res.isPass = false ∧ res.isFailRec = true ∧ res.isErrorRec = false)
    ∨ (res.isPass = false ∧ res.isFailRec = false ∧ res.isErrorRec = true) := by
  cases res with
  | error t c raw => simp [RunResult.isPass, RunResult.isFailRec, RunResult.isErrorRec]
  | done r st fr =>
    by_cases h : st = "pass" <;>
      simp [RunResult.isPass, RunResult.isFailRec, RunResult.isErrorRec, h]

lemma mainLoop_all_pass (items : List (Config × RunResult)) :
    ((mainLoop items).fails = 0 ∧ (mainLoop items).errors = 0)
      ↔ ∀ it ∈ items, it.2.isPass = true := by
  obtain ⟨hp, hf, he⟩ := mainLoop_counts_go items ⟨0, 0, 0, []⟩
  unfold mainLoop
  rw [hf, he]
  simp only [Nat.zero_add]
  rw [List.countP_eq_zero, List.countP_eq_zero]
  constructor
  · rintro ⟨h1, h2⟩ it hit
    rcases runResult_trichotomy it.2 with ⟨ha, _, _⟩ | ⟨_, hb, _⟩ | ⟨_, _, hc⟩
    · exact ha
    · exact absurd hb (by simpa using h1 it hit)
    · exact absurd hc (by simpa using h2 it hit)
  · intro h
    constructor
    · intro it hit
      rcases runResult_trichotomy it.2 with ⟨_, hb, _⟩ | ⟨ha, _, _⟩ | ⟨_, hb, _⟩ <;>
        simp_all [h it hit]
    · intro it hit
      rcases runResult_trichotomy it.2 with ⟨_, _, hc⟩ | ⟨_, _, hc⟩ | ⟨ha, _, _⟩ <;>
        simp_all [h it hit]

lemma mainExit_spec (ok : Bool) (items : List (Config × RunResult)) :
    (mainExit ok items = 2 ↔ ok = false)
    ∧ (mainExit ok items = 0 ↔ ok = true ∧ ∀ it ∈ items, it.2.isPass = true)
    ∧ (mainExit ok items = 1 ↔ ok = true ∧ ¬ ∀ it ∈ items, it.2.isPass = true) := by
  cases ok with
  | false => simp [mainExit]
  | true =>
    simp only [mainExit, if_neg (by simp : ¬ (true = false))]
    by_cases h : (mainLoop items).fails ≠ 0 ∨ (mainLoop items).errors ≠ 0
    · rw [if_pos h]
      have hnall : ¬ ((mainLoop items).fails = 0 ∧ (mainLoop items).errors = 0) := by tauto
      rw [mainLoop_all_pass] at hnall
      refine ⟨by simp, ?_, ?_⟩
      · constructor
        · intro h10; exact absurd h10 (by decide)
        · rintro ⟨-, hall⟩; exact absurd hall hnall
      · exact ⟨fun _ => ⟨by trivial, hnall⟩, fun _ => by trivial⟩
    · rw [if_neg h]
      push_neg at h
      have hall := (mainLoop_all_pass items).mp ⟨h.1, h.2⟩
      refine ⟨by simp, ?_, ?_⟩
      · exact ⟨fun _ => ⟨by trivial, hall⟩, fun _ => by trivial⟩
      · constructor
        · intro h01; exact absurd h01 (by decide)
        · rintro ⟨-, hnall⟩; exact absurd hall hnall




lemma optInt_default_val {r : List (String × String)} {k1 k2 : String} {x : Int}
    (h1 : List.lookup k1 r = none) (h2 : List.lookup k2 r = none)
    (h : optInt r k1 k2 = .ok x) : x = 0 := by
  rw [optInt_none_none h1 h2] at h
  simpa using h.symm

/-- C1: the Invariant Validator reports `hitmiss_sum` if and only if
`page_hits + page_misses` differs from the record's `ops` count; the
Scenario 1 key=value line is classified `pass`, and the same line with
`page_hits=6` is classified `fail` with violations exactly `hitmiss_sum`. -/
theorem C1_hitmiss_sum_iff :
    (∀ r : CanonicalRecord,
      "hitmiss_sum" ∈ checksOf r ↔ r.page_hits + r.page_misses ≠ r.ops)
    ∧ run_single ⟨5, "LRU", 10, 3, mkRat 1 2⟩
        (.ok "policy=LRU,pool=5,ops=10,pages=3,write_frac=0.5,logical_reads=4,logical_writes=6,phys_reads=2,phys_writes=3,page_hits=7,page_misses=3")
        = .done ⟨"LRU", 5, 10, 3, mkRat 1 2, 4, 6, 2, 3, 7, 3⟩ "pass" []
    ∧ run_single ⟨5, "LRU", 10, 3, mkRat 1 2⟩
        (.ok "policy=LRU,pool=5,ops=10,pages=3,write_frac=0.5,logical_reads=4,logical_writes=6,phys_reads=2,phys_writes=3,page_hits=6,page_misses=3")
        = .done ⟨"LRU", 5, 10, 3, mkRat 1 2, 4, 6, 2, 3, 6, 3⟩ "fail" ["hitmiss_sum"] :=
  ⟨checksOf_mem_hitmiss, by decide, by decide⟩

/-- Witness for C1: the iff applied to the Scenario 2 record, whose
hit/miss sum 6 + 3 differs from its ops count 10. -/
theorem C1_hitmiss_sum_iff_witness :
    "hitmiss_sum" ∈ checksOf ⟨"LRU", 5, 10, 3, mkRat 1 2, 4, 6, 2, 3, 6, 3⟩ :=
  (C1_hitmiss_sum_iff.1 ⟨"LRU", 5, 10, 3, mkRat 1 2, 4, 6, 2, 3, 6, 3⟩).mpr (by decide)

/-- C2 counterexample: a key=value line reporting `logical_reads=-1` (all
other fields as in Scenario 1) decodes to a record with a negative counter
that is still classified `pass`, so a negative counter does not imply
status `fail`. -/
theorem C2_counterexample :
    run_single ⟨5, "LRU", 10, 3, mkRat 1 2⟩
        (.ok "policy=LRU,pool=5,ops=10,pages=3,write_frac=0.5,logical_reads=-1,logical_writes=6,phys_reads=2,phys_writes=3,page_hits=7,page_misses=3")
        = .done ⟨"LRU", 5, 10, 3, mkRat 1 2, -1, 6, 2, 3, 7, 3⟩ "pass" []
    ∧ (⟨"LRU", 5, 10, 3, mkRat 1 2, -1, 6, 2, 3, 7, 3⟩ : CanonicalRecord).logical_reads < 0
    ∧ statusOf ⟨"LRU", 5, 10, 3, mkRat 1 2, -1, 6, 2, 3, 7, 3⟩ ≠ "fail" := by
  refine ⟨by decide, by decide, by decide⟩

/-- C2 (amended): a record the validator classifies `pass` has the four
checked counters `phys_reads, phys_writes, page_hits, page_misses`
non-negative; negativity of `logical_reads` and `logical_writes` is not
checked. -/
theorem C2_pass_checked_counters (r : CanonicalRecord) (h : statusOf r = "pass") :
    0 ≤ r.phys_reads ∧ 0 ≤ r.phys_writes ∧ 0 ≤ r.page_hits ∧ 0 ≤ r.page_misses :=
  statusOf_pass_nonneg r h

/-- Witness for the amended C2 at the Scenario 1 record. -/
theorem C2_pass_checked_counters_witness :
    statusOf ⟨"LRU", 5, 10, 3, mkRat 1 2, 4, 6, 2, 3, 7, 3⟩ = "pass"
    ∧ (0 ≤ (⟨"LRU", 5, 10, 3, mkRat 1 2, 4, 6, 2, 3, 7, 3⟩ : CanonicalRecord).phys_reads
       ∧ 0 ≤ (⟨"LRU", 5, 10, 3, mkRat 1 2, 4, 6, 2, 3, 7, 3⟩ : CanonicalRecord).phys_writes
       ∧ 0 ≤ (⟨"LRU", 5, 10, 3, mkRat 1 2, 4, 6, 2, 3, 7, 3⟩ : CanonicalRecord).page_hits
       ∧ 0 ≤ (⟨"LRU", 5, 10, 3, mkRat 1 2, 4, 6, 2, 3, 7, 3⟩ : CanonicalRecord).page_misses) :=
  ⟨by decide, C2_pass_checked_counters ⟨"LRU", 5, 10, 3, mkRat 1 2, 4, 6, 2, 3, 7, 3⟩ (by decide)⟩



/-- C3 counterexample: in the `run_pf_experiments.py` sweep, a
`CalledProcessError` on the first configuration exits the script with code 1
and the second configuration is never attempted. -/
theorem C3_counterexample :
    pfExpSweep
        [(⟨5, "lru", 200, 10, 0⟩, .calledProcessError 1), (⟨5, "mru", 200, 10, 0⟩, .ok)]
      = ([⟨5, "lru", 200, 10, 0⟩], some 1)
    ∧ (⟨5, "mru", 200, 10, 0⟩ : Config) ∉ [(⟨5, "lru", 200, 10, 0⟩ : Config)] := by
  refine ⟨by decide, by decide⟩

/-- C3 (amended): only the `pf_task1_testrunner.py` sweep attempts and
records every configuration regardless of earlier outcomes; the
`run_pf_experiments.py` sweep stops at the first invocation failure
(`sys.exit(1)`), and the `run_task3_experiments.py` size loop stops at the
first run that returns `None` (and an exception there crashes it). -/
theorem C3_sweep_abort_behavior :
    (∀ items : List (Config × RunResult),
      (mainLoop items).csv.map Prod.fst = items.map Prod.fst)
    ∧ (∀ runs : List (Config × PfInvoke),
        (pfExpSweep runs).1 =
          (runs.takeWhile (fun p => p.2 == PfInvoke.ok)).map Prod.fst
            ++ ((runs.dropWhile (fun p => p.2 == PfInvoke.ok)).take 1).map Prod.fst)
    ∧ (∀ runs : List (Int × Task3Result),
        (task3Sweep runs).attempted =
          (runs.takeWhile (fun p => p.2.isCollected)).map Prod.fst
            ++ ((runs.dropWhile (fun p => p.2.isCollected)).take 1).map Prod.fst) := by
  refine ⟨fun items => ?_, pfExp_attempted, fun runs => ?_⟩
  · rw [show (mainLoop items).csv = items from (mainLoop_go items ⟨0, 0, 0, []⟩).2]
  · simpa using task3_go_attempted runs [] []

/-- C4: exit code 2 iff the binary was unavailable and unbuildable; exit
code 0 iff the binary was available and every run was classified `pass`;
exit code 1 iff the binary was available and some run failed or errored. -/
theorem C4_exit_codes (ok : Bool) (items : List (Config × RunResult)) :
    (mainExit ok items = 2 ↔ ok = false)
    ∧ (mainExit ok items = 0 ↔ ok = true ∧ ∀ it ∈ items, it.2.isPass = true)
    ∧ (mainExit ok items = 1 ↔ ok = true ∧ ¬ ∀ it ∈ items, it.2.isPass = true) :=
  mainExit_spec ok items

/-- Witness for C4: with the binary available and one failing record the
exit code is 1; with no binary it is 2. -/
theorem C4_exit_codes_witness :
    mainExit false [] = 2
    ∧ mainExit true [(⟨5, "LRU", 10, 3, 0⟩,
        .done ⟨"LRU", 5, 10, 3, 0, 0, 0, 0, 0, 0, 0⟩ "fail" ["hitmiss_sum"])] = 1 :=
  ⟨(C4_exit_codes false []).1.mpr rfl,
   (C4_exit_codes true [(⟨5, "LRU", 10, 3, 0⟩,
        .done ⟨"LRU", 5, 10, 3, 0, 0, 0, 0, 0, 0, 0⟩ "fail" ["hitmiss_sum"])]).2.2.mpr
     ⟨rfl, by decide⟩⟩



/-- C5 counterexample: empty captured output is tagged `empty_stdout`, not
`empty_output`, and a nonzero exit produces an error record that does not
retain the stderr text. -/
theorem C5_counterexample :
    run_single ⟨5, "LRU", 10, 3, 0⟩ (.ok "") = .error "empty_stdout" ⟨5, "LRU", 10, 3, 0⟩ none
    ∧ ("empty_stdout" : String) ≠ "empty_output"
    ∧ run_single ⟨5, "LRU", 10, 3, 0⟩ (.nonzeroExit 1 "diagnostic text")
        = .error "exit_code_1" ⟨5, "LRU", 10, 3, 0⟩ none := by
  refine ⟨by decide, by decide, by decide⟩

/-- C5 (amended): every error record of `run_single` is tagged
`exit_code_N`, `timeout`, `empty_stdout`, or `parse_error_<detail>`; nonzero
exit status N yields `exit_code_N` with the stderr text discarded, a timeout
yields `timeout`, and blank captured stdout yields `empty_stdout`. -/
theorem C5_error_tags (cfg : Config) (inv : InvokeResult) :
    (∀ (n : Int) (err : String),
      run_single cfg (.nonzeroExit n err) = .error ("exit_code_" ++ toString n) cfg none)
    ∧ run_single cfg .timedOut = .error "timeout" cfg none
    ∧ (∀ s, pyStrip s = "" → run_single cfg (.ok s) = .error "empty_stdout" cfg none)
    ∧ (∀ tag c raw, run_single cfg inv = .error tag c raw →
        (∃ n : Int, tag = "exit_code_" ++ toString n) ∨ tag = "timeout"
        ∨ tag = "empty_stdout" ∨ ∃ d, tag = "parse_error_" ++ d) :=
  ⟨fun _ _ => rfl, rfl, run_single_empty cfg,
   fun _ _ _ h => run_single_error_shape h⟩

/-- Witness for the amended C5: blank stdout maps to `empty_stdout`, and the
tag of a concrete nonzero-exit error record falls in the four shapes. -/
theorem C5_error_tags_witness :
    run_single ⟨5, "LRU", 10, 3, 0⟩ (.ok " \n ") = .error "empty_stdout" ⟨5, "LRU", 10, 3, 0⟩ none
    ∧ ((∃ n : Int, "exit_code_7" = "exit_code_" ++ toString n) ∨ "exit_code_7" = "timeout"
        ∨ "exit_code_7" = "empty_stdout" ∨ ∃ d, "exit_code_7" = "parse_error_" ++ d) :=
  ⟨(C5_error_tags ⟨5, "LRU", 10, 3, 0⟩ .timedOut).2.2.1 " \n " (by decide),
   (C5_error_tags ⟨5, "LRU", 10, 3, 0⟩ (.nonzeroExit 7 "x")).2.2.2
     "exit_code_7" ⟨5, "LRU", 10, 3, 0⟩ none (by decide)⟩



/-- C6: decoding a key=value line, a missing required field (`policy, pool,
ops, pages, write_frac`) raises and yields a parse-error record, never a
defaulted record; a counter field absent under both alias spellings defaults
to zero and still yields a CanonicalRecord; alias spellings are accepted. -/
theorem C6_required_fields_vs_defaults :
    (∀ r : List (String × String),
      (List.lookup "policy" r = none → ∃ d, normalize r = .error d)
      ∧ (List.lookup "pool" r = none → ∃ d, normalize r = .error d)
      ∧ (List.lookup "ops" r = none → ∃ d, normalize r = .error d)
      ∧ (List.lookup "pages" r = none → ∃ d, normalize r = .error d)
      ∧ (List.lookup "write_frac" r = none → ∃ d, normalize r = .error d)
      ∧ (∀ rec2 : CanonicalRecord, normalize r = .ok rec2 →
          (List.lookup "logical_reads" r = none → List.lookup "logical read" r = none →
            rec2.logical_reads = 0)
          ∧ (List.lookup "logical_writes" r = none → List.lookup "logical write" r = none →
            rec2.logical_writes = 0)
          ∧ (List.lookup "phys_reads" r = none → List.lookup "physical read" r = none →
            rec2.phys_reads = 0)
          ∧ (List.lookup "phys_writes" r = none → List.lookup "physical write" r = none →
            rec2.phys_writes = 0)
          ∧ (List.lookup "page_hits" r = none → List.lookup "hits" r = none →
            rec2.page_hits = 0)
          ∧ (List.lookup "page_misses" r = none → List.lookup "misses" r = none →
            rec2.page_misses = 0)))
    ∧ run_single ⟨5, "LRU", 10, 3, mkRat 1 2⟩ (.ok "pool=5,ops=10,pages=3,write_frac=0.5")
        = .error "parse_error_'policy'" ⟨5, "LRU", 10, 3, mkRat 1 2⟩
            (some [("pool", "5"), ("ops", "10"), ("pages", "3"), ("write_frac", "0.5")])
    ∧ run_single ⟨5, "LRU", 10, 3, mkRat 1 2⟩
        (.ok "policy=LRU,pool=5,ops=10,pages=3,write_frac=0.5")
        = .done ⟨"LRU", 5, 10, 3, mkRat 1 2, 0, 0, 0, 0, 0, 0⟩ "fail" ["hitmiss_sum"]
    ∧ run_single ⟨5, "LRU", 10, 3, mkRat 1 2⟩
        (.ok "policy=LRU,pool=5,ops=10,pages=3,write_frac=0.5,logical read=4,logical write=6,physical read=2,physical write=3,hits=7,misses=3")
        = .done ⟨"LRU", 5, 10, 3, mkRat 1 2, 4, 6, 2, 3, 7, 3⟩ "pass" [] := by
  refine ⟨fun r => ?_, by decide, by decide, by decide⟩
  refine ⟨normalize_error_of_missing (by tauto),
          normalize_error_of_missing (by tauto),
          normalize_error_of_missing (by tauto),
          normalize_error_of_missing (by tauto),
          normalize_error_of_missing (by tauto),
          fun rec2 hok => ?_⟩
  obtain ⟨-, -, -, -, -, h6, h7, h8, h9, h10, h11⟩ := normalize_ok_spec hok
  exact ⟨fun a b => optInt_default_val a b h6, fun a b => optInt_default_val a b h7,
         fun a b => optInt_default_val a b h8, fun a b => optInt_default_val a b h9,
         fun a b => optInt_default_val a b h10, fun a b => optInt_default_val a b h11⟩

/-- Witness for C6: a dict with no `policy` binding makes `normalize` raise,
and the record decoded from the required-fields-only Scenario line has its
`logical_reads` counter defaulted to zero. -/
theorem C6_required_fields_vs_defaults_witness :
    (∃ d, normalize [("pool", "5"), ("ops", "10"), ("pages", "3"), ("write_frac", "0.5")]
      = .error d)
    ∧ (⟨"LRU", 5, 10, 3, mkRat 1 2, 0, 0, 0, 0, 0, 0⟩ : CanonicalRecord).logical_reads = 0 :=
by
  refine ⟨?_, ?_⟩
  · exact (C6_required_fields_vs_defaults.1
      [("pool", "5"), ("ops", "10"), ("pages", "3"), ("write_frac", "0.5")]).1 (by decide)
  · have h := (C6_required_fields_vs_defaults.1
      (parseKV "policy=LRU,pool=5,ops=10,pages=3,write_frac=0.5")).2.2.2.2.2
      (⟨"LRU", 5, 10, 3, mkRat 1 2, 0, 0, 0, 0, 0, 0⟩ : CanonicalRecord) (by rfl)
    exact h.1 (by decide) (by decide)



/-- C7: the sink read depends only on the last row of the sink file, and on
any sink content ending in a well-formed row it extracts exactly the
integers at positions 5 through 10 of that last row. -/
theorem C7_sink_last_row :
    (∀ (rows : List (List String)) (row : List String),
      readSinkLast (rows ++ [row]) = readSinkLast [row])
    ∧ (∀ (rows : List (List String)) (last : List String)
        (s5 s6 s7 s8 s9 s10 : String) (v5 v6 v7 v8 v9 v10 : Int),
        rows.getLast? = some last →
        last[5]? = some s5 → last[6]? = some s6 → last[7]? = some s7 →
        last[8]? = some s8 → last[9]? = some s9 → last[10]? = some s10 →
        parsePyInt s5 = some v5 → parsePyInt s6 = some v6 → parsePyInt s7 = some v7 →
        parsePyInt s8 = some v8 → parsePyInt s9 = some v9 → parsePyInt s10 = some v10 →
        readSinkLast rows = some (v5, v6, v7, v8, v9, v10)) :=
  ⟨readSinkLast_last_only, readSinkLast_spec⟩

/-- Witness for C7: a sink holding a header row and one appended data row in
the fixed column order yields the six counters of the data row. -/
theorem C7_sink_last_row_witness :
    readSinkLast
        [["policy", "pool", "ops", "pages", "write_frac", "logical_reads", "logical_writes",
          "phys_reads", "phys_writes", "page_hits", "page_misses"],
         ["lru", "5", "200", "10", "0.5", "103", "97", "12", "30", "150", "50"]]
      = some (103, 97, 12, 30, 150, 50) :=
  C7_sink_last_row.2
    [["policy", "pool", "ops", "pages", "write_frac", "logical_reads", "logical_writes",
      "phys_reads", "phys_writes", "page_hits", "page_misses"],
     ["lru", "5", "200", "10", "0.5", "103", "97", "12", "30", "150", "50"]]
    ["lru", "5", "200", "10", "0.5", "103", "97", "12", "30", "150", "50"]
    "103" "97" "12" "30" "150" "50" 103 97 12 30 150 50
    (by decide) (by decide) (by decide) (by decide) (by decide) (by decide) (by decide)
    (by decide) (by decide) (by decide) (by decide) (by decide) (by decide)

/-- C8: the parameter grid is `itertools.product` over the axes in the
nesting order pools, policies, ops, pages, write fractions, so the element
at mixed-radix position `(((i1·2+i2)·4+i3)·5+i4)·8+i5` is the tuple of the
axis elements at `i1..i5`, the total count is the product of the axis sizes,
and the quick grid is the same product over the substituted axes. -/
theorem C8_grid_enumeration :
    (∀ (i1 i2 i3 i4 i5 : Nat) (a : Int) (b : String) (c : Int) (d : Int) (e : ℚ),
      pools[i1]? = some a → policies[i2]? = some b → ops_list[i3]? = some c →
      pages[i4]? = some d → write_fracs[i5]? = some e →
      combos[(((i1 * 2 + i2) * 4 + i3) * 5 + i4) * 8 + i5]? = some (a, b, c, d, e))
    ∧ (∀ (i1 i2 i3 i4 i5 : Nat) (a : Int) (b : String) (c : Int) (d : Int) (e : ℚ),
      pools_quick[i1]? = some a → policies[i2]? = some b → ops_list_quick[i3]? = some c →
      pages_quick[i4]? = some d → write_fracs_quick[i5]? = some e →
      combos_quick[(((i1 * 2 + i2) * 2 + i3) * 2 + i4) * 3 + i5]? = some (a, b, c, d, e))
    ∧ combos.length = 1920 ∧ combos_quick.length = 48 := by
  refine ⟨?_, ?_, ?_, ?_⟩
  · intro i1 i2 i3 i4 i5 a b c d e h1 h2 h3 h4 h5
    have h := pyProduct5_getElem? pools policies ops_list pages write_fracs
      i1 i2 i3 i4 i5 a b c d e h1 h2 h3 h4 h5
    simpa [combos, policies, ops_list, pages, write_fracs] using h
  · intro i1 i2 i3 i4 i5 a b c d e h1 h2 h3 h4 h5
    have h := pyProduct5_getElem? pools_quick policies ops_list_quick pages_quick
      write_fracs_quick i1 i2 i3 i4 i5 a b c d e h1 h2 h3 h4 h5
    simpa [combos_quick, policies, ops_list_quick, pages_quick, write_fracs_quick] using h
  · rw [show combos = pyProduct5 pools policies ops_list pages write_fracs from rfl,
      length_pyProduct5]
    rfl
  · rw [show combos_quick
        = pyProduct5 pools_quick policies ops_list_quick pages_quick write_fracs_quick from rfl,
      length_pyProduct5]
    rfl

/-- Witness for C8: position `(((2·2+1)·4+3)·5+4)·8+7 = 959` of the full grid
holds `(pool 3, MRU, ops 200, pages 10, write fraction 1.0)`. -/
theorem C8_grid_enumeration_witness :
    combos[959]? = some (3, "MRU", 200, 10, 1) := by
  have h := C8_grid_enumeration.1 2 1 3 4 7 3 "MRU" 200 10 1
    (by decide) (by decide) (by decide) (by decide) (by decide)
  simpa using h



/-- C9 counterexample: in a headered block, a data row with the expected 8
fields but a non-integer numeric field is not dropped: `int()` raises an
uncaught ValueError, and the conforming rows are not returned. -/
theorem C9_counterexample :
    run_one 2000 0
        "Method,t,pr,pw,lr,lw,ph,pm\nA,1,2,3,4,5,6,7\nB,x,2,3,4,5,6,7\nC,1,2,3,4,5,6,7"
      = .raised "invalid literal for int() with base 10: 'x'"
    ∧ run_one 2000 0
        "Method,t,pr,pw,lr,lw,ph,pm\nA,1,2,3,4,5,6,7\nB,x,2,3,4,5,6,7\nC,1,2,3,4,5,6,7"
      ≠ .collected [("A", 2000, [1, 2, 3, 4, 5, 6, 7]), ("C", 2000, [1, 2, 3, 4, 5, 6, 7])] := by
  refine ⟨by decide, by decide⟩

/-- C9 (amended): a data row with a field count other than 8 is dropped and
the remaining rows still processed; a block with fewer than three data rows
after the header makes `run_one` warn and return `None` (rows are dropped,
not padded); but a row with 8 fields and a non-integer numeric field raises
an uncaught exception instead of being dropped. -/
theorem C9_row_handling :
    (∀ (n : Int) (r : String) (rest : List String) (method : String) (numParts : List String),
      (pySplitChar ',' r).map pyStrip = method :: numParts → numParts.length ≠ 7 →
      processRows n (r :: rest) = processRows n rest)
    ∧ (∀ (n : Int) (r : String) (rest : List String) (method : String)
        (numParts : List String) (vals : List Int),
      (pySplitChar ',' r).map pyStrip = method :: numParts → numParts.length = 7 →
      parseIntsAll numParts = .ok vals →
      processRows n (r :: rest) = (processRows n rest).map (fun rs => (method, n, vals) :: rs))
    ∧ (∀ (n : Int) (stdout : String),
      (findDataRows (pyLines stdout)).length < 3 → run_one n 0 stdout = .returnedNone)
    ∧ (∀ (n : Int) (r : String) (rest : List String) (method : String)
        (numParts : List String) (e : String),
      (pySplitChar ',' r).map pyStrip = method :: numParts → numParts.length = 7 →
      parseIntsAll numParts = .error e →
      processRows n (r :: rest) = .error e) :=
  ⟨processRows_skip, processRows_keep, run_one_short, processRows_raises⟩

/-- Witness for the amended C9: a 3-field row is skipped while the following
8-field row is kept, and a block with only two data rows returns `None`. -/
theorem C9_row_handling_witness :
    processRows 2000 ["bad,row,short", "A,1,2,3,4,5,6,7"]
      = .ok [("A", 2000, [1, 2, 3, 4, 5, 6, 7])]
    ∧ run_one 2000 0 "Method,t,pr,pw,lr,lw,ph,pm\nA,1,2,3,4,5,6,7\nB,1,2,3,4,5,6,7"
      = .returnedNone := by
  constructor
  · rw [C9_row_handling.1 2000 "bad,row,short" ["A,1,2,3,4,5,6,7"] "bad" ["row", "short"]
      (by decide) (by decide)]
    rw [C9_row_handling.2.1 2000 "A,1,2,3,4,5,6,7" [] "A" ["1", "2", "3", "4", "5", "6", "7"]
      [1, 2, 3, 4, 5, 6, 7] (by decide) (by decide) (by rfl)]
    rfl
  · exact C9_row_handling.2.2.1 2000 _ (by decide)

/-- C10: after a complete sweep the three tallies partition the
configuration count, and the results CSV holds exactly one data row per
configuration, appended in generation order. -/
theorem C10_tallies_partition (items : List (Config × RunResult)) :
    (mainLoop items).passes + (mainLoop items).fails + (mainLoop items).errors = items.length
    ∧ (mainLoop items).csv = items := by
  have h := mainLoop_go items ⟨0, 0, 0, []⟩
  simpa [mainLoop] using h

end DBS
